import Mathlib

/-!
Verification of the asynchronous-job poller and bias-request builder
behaviour of the quickstart notebook
`00_quickstart/wip/09_Detect_Model_Bias_Clarify.ipynb`.

The first part embeds the notebook's pipeline-execution polling loop

    executions_response = sm.list_pipeline_executions(PipelineName=pipeline_name)["PipelineExecutionSummaries"]
    pipeline_execution_status = executions_response[0]["PipelineExecutionStatus"]
    while pipeline_execution_status == "Executing":
        try:
            executions_response = sm.list_pipeline_executions(PipelineName=pipeline_name)["PipelineExecutionSummaries"]
            pipeline_execution_status = executions_response[0]["PipelineExecutionStatus"]
        except Exception as e:
            print("Please wait...")
            time.sleep(30)

as a pure state-passing function over an explicit stream of service
responses, together with the `CreateModel` step scan of the later cell.
The second part models the bias-request builder (the `clarify` SDK
configuration and submission calls) from the specification, since the
SDK's validation code is not part of this repository.
-/

namespace Workshop

/-- One entry of the `PipelineExecutionSummaries` list returned by the
`list_pipeline_executions` service call; the notebook reads its
`PipelineExecutionStatus` and `PipelineExecutionArn` fields. -/
structure ExecutionSummary where
  PipelineExecutionStatus : String
  PipelineExecutionArn : String
deriving DecidableEq, Repr

/-- The outcome of one `sm.list_pipeline_executions(...)` call: the call
either raises an exception or returns the list of execution summaries. -/
inductive ServiceResponse where
  | raises
  | returns (summaries : List ExecutionSummary)
deriving DecidableEq, Repr

/-- The Python-level errors the notebook's polling cell can raise:
an exception out of the service call itself, or the `IndexError` raised
by `executions_response[0]` on an empty summary list. -/
inductive PyError where
  | apiException
  | indexError
deriving DecidableEq, Repr

/-- `executions_response[0]["PipelineExecutionStatus"]`: reads the first
element of the summary list; on an empty list this is the `IndexError`
of Python's `[0]` indexing, and no status is produced. -/
def statusOfResponse : List ExecutionSummary → Except PyError String
  | [] => .error .indexError
  | s :: _ => .ok s.PipelineExecutionStatus

/-- The local variables the polling cell writes: `executions_response`
and `pipeline_execution_status`. -/
structure PollState where
  executions_response : List ExecutionSummary
  pipeline_execution_status : String
deriving DecidableEq, Repr

/-- Operations performed against the external service.  The poller only
ever emits the read-only `listPipelineExecutions` query; the mutating
`createProcessingJob` constructor exists so that read-only-ness is a
non-trivial property of a trace. -/
inductive ServiceOp where
  | listPipelineExecutions (pipelineName : String)
  | createProcessingJob (jobName : String)
deriving DecidableEq, Repr

/-- An operation is read-only when it only queries state held by the
external service. -/
def ServiceOp.isReadOnly : ServiceOp → Bool
  | .listPipelineExecutions _ => true
  | .createProcessingJob _ => false

/-- One pass of the `try:`/`except:` loop body.  If the service call
raises, the exception is caught and both variables keep their values
(the cell prints and sleeps 30 seconds).  If the call returns a list,
`executions_response` is assigned first; then the `[0]` read either
raises (caught, so the status keeps its old value) or assigns the fresh
status. -/
def pollStep (resp : ServiceResponse) (st : PollState) : PollState :=
  match resp with
  | .raises => st
  | .returns l =>
    match statusOfResponse l with
    | .error _ => { st with executions_response := l }
    | .ok s => { executions_response := l, pipeline_execution_status := s }

/-- The `while pipeline_execution_status == "Executing"` loop, with
explicit fuel since the source loop has no bound.  `svc` gives the
response to the i-th service call overall and `i` counts the calls
already made (the initial query included), so the returned counter is
the total number of queries.  The second component is the trace of
service operations the loop performs. -/
def pollLoop (pname : String) (svc : Nat → ServiceResponse) :
    Nat → Nat → PollState → Option (PollState × Nat) × List ServiceOp
  | 0, _, _ => (none, [])
  | fuel + 1, i, st =>
    if st.pipeline_execution_status = "Executing" then
      let rest := pollLoop pname svc fuel (i + 1) (pollStep (svc i) st)
      (rest.1, ServiceOp.listPipelineExecutions pname :: rest.2)
    else
      (some (st, i), [])

/-- How the polling cell can end: the loop exits and the last state is
available (with the total number of queries), an exception escapes to
the caller, or the fuel ran out while the loop was still spinning. -/
inductive AwaitResult where
  | ok (st : PollState) (queries : Nat)
  | uncaught (e : PyError)
  | fuelOut
deriving DecidableEq, Repr

/-- The seconds slept by `time.sleep(30)` after a caught in-loop
exception. -/
def poll_interval_seconds : Nat := 30

/-- The whole polling cell.  The initial query and the initial `[0]`
read happen before the `while`, outside any `try:`/`except:`, so a
failure there escapes to the caller; afterwards the loop runs on the
initial state.  Returns the outcome together with the trace of service
operations performed. -/
def await_completion (pname : String) (fuel : Nat) (svc : Nat → ServiceResponse) :
    AwaitResult × List ServiceOp :=
  match svc 0 with
  | .raises => (.uncaught .apiException, [.listPipelineExecutions pname])
  | .returns l =>
    match statusOfResponse l with
    | .error e => (.uncaught e, [.listPipelineExecutions pname])
    | .ok s =>
      match pollLoop pname svc fuel 1 ⟨l, s⟩ with
      | (none, tr) => (.fuelOut, .listPipelineExecutions pname :: tr)
      | (some (fin, n), tr) => (.ok fin n, .listPipelineExecutions pname :: tr)

/-- The abstract job statuses of the specification's data model. -/
inductive JobStatus where
  | Pending
  | Running
  | Succeeded
  | Failed
  | Stopped
deriving DecidableEq, Repr

/-- How the pipeline service reports each abstract status as a
`PipelineExecutionStatus` string: the service reports every in-progress
execution (the specification's Pending/Running states) with the single
status string "Executing", and each terminal state with its own name. -/
def JobStatus.asReported : JobStatus → String
  | .Pending => "Executing"
  | .Running => "Executing"
  | .Succeeded => "Succeeded"
  | .Failed => "Failed"
  | .Stopped => "Stopped"

/-- One entry of the `PipelineExecutionSteps` list; the notebook reads
the step name and, for the model-creation step, the model resource
identifier `Metadata.Model.Arn`. -/
structure ExecutionStep where
  StepName : String
  modelArn : String
deriving DecidableEq, Repr

/-- The notebook's model-artifact lookup:

    for execution_step in steps["PipelineExecutionSteps"]:
        if execution_step["StepName"] == "CreateModel":
            model_arn = execution_step["Metadata"]["Model"]["Arn"]
            break
    print(model_arn)

scans the steps in order and takes the arn of the first step named
"CreateModel"; `none` is the case where the loop finishes without a
match, so `model_arn` was never assigned and `print(model_arn)` raises
a `NameError` (an undefined-variable error, not a descriptive
configuration error). -/
def findModelArn : List ExecutionStep → Option String
  | [] => none
  | s :: rest =>
    if s.StepName = "CreateModel" then some s.modelArn else findModelArn rest

/-! ## Bias-request builder

The notebook configures and submits the bias-analysis job through the
`clarify` SDK (`DataConfig`, `BiasConfig`, `run_post_training_bias`),
whose validation code is outside this repository; the builder below is
therefore modelled from the specification, while the concrete
configuration values come from the notebook cells. -/

/-- Modelled from the spec: the declared domain of the label column —
`favorable_label_values` is a numeric threshold list for continuous
labels and a category list for categorical labels (the notebook cell
carries the same rule as a comment: "needs to be int or str for
continuous dtype, needs to be >1 for categorical dtype"). -/
inductive LabelDomain where
  | continuous
  | categorical
deriving DecidableEq, Repr

/-- Modelled from the spec: the `data_config` value object — input and
output locations, label column, ordered feature columns (the exact
order the model consumes), header columns, and dataset format.  The
SDK-level `clarify.DataConfig` class itself is not in the repository. -/
structure DataConfig where
  s3_data_input_path : String
  s3_output_path : String
  label : String
  feature_columns : List String
  headers : List String
  dataset_type : String
deriving DecidableEq, Repr

/-- Modelled from the spec: the `bias_config` value object — the facet
column and the favorable label values, together with the label column's
declared domain.  The SDK-level `clarify.BiasConfig` class itself is
not in the repository. -/
structure BiasConfig where
  facet_name : String
  label_values_or_threshold : List Int
  label_domain : LabelDomain
deriving DecidableEq, Repr

/-- Modelled from the spec: the configuration errors `submit` raises
before any network call when a structural invariant is violated. -/
inductive ValidationError where
  | emptyFeatureColumns
  | headerOrderMismatch
  | facetNotInHeaders
  | favorableValuesEmpty
  | categoricalNeedsAtLeastTwoValues
  | ftRequiresNumericColumns
deriving DecidableEq, Repr

/-- Modelled from the spec: the precondition on `favorable_label_values`
— the list is non-empty, and a label domain declared categorical needs
at least two category values. -/
def favorable_values_ok (bc : BiasConfig) : Except ValidationError Unit :=
  if bc.label_values_or_threshold = [] then .error .favorableValuesEmpty
  else if bc.label_domain = .categorical ∧ bc.label_values_or_threshold.length < 2 then
    .error .categoricalNeedsAtLeastTwoValues
  else .ok ()

/-- Modelled from the spec: the structural validation `submit` performs
before the job-creation call.  `numeric c` tells whether column `c` is
declared numeric; the FT metric requires the facet column and every
feature column to be numeric. -/
def validate (numeric : String → Bool) (dc : DataConfig) (bc : BiasConfig)
    (metrics : List String) : Except ValidationError Unit :=
  if dc.feature_columns = [] then .error .emptyFeatureColumns
  else if ¬ dc.headers = dc.feature_columns ++ [dc.label] then .error .headerOrderMismatch
  else if ¬ bc.facet_name ∈ dc.headers then .error .facetNotInHeaders
  else
    match favorable_values_ok bc with
    | .error e => .error e
    | .ok () =>
      if "FT" ∈ metrics ∧ ¬ ∀ c ∈ bc.facet_name :: dc.feature_columns, numeric c = true then
        .error .ftRequiresNumericColumns
      else .ok ()

/-- Modelled from the spec: `submit` validates the configuration, and
only when validation passes issues the single asynchronous job-creation
call, reading back the job name (`svcJobName` is the name the external
service assigns).  The second component counts the network calls made,
so a validation failure happens before any network call. -/
def submit (numeric : String → Bool) (dc : DataConfig) (bc : BiasConfig)
    (metrics : List String) (svcJobName : String) :
    Except ValidationError String × Nat :=
  match validate numeric dc bc metrics with
  | .error e => (.error e, 0)
  | .ok () => (.ok svcJobName, 1)

/-- The keyword arguments of the notebook's submission call
`clarify_processor.run_post_training_bias(..., methods=[...],
wait=False, logs=False)`. -/
structure RunPostTrainingBiasCall where
  methods : List String
  wait : Bool
  logs : Bool
deriving DecidableEq, Repr

/-- The notebook's header columns: label last, features in the exact
order the model consumes them. -/
def notebook_headers : List String := ["review_body", "product_category", "star_rating"]

/-- The notebook's data configuration (cell `clarify.DataConfig`); the
input and output locations are runtime session values, so they are
parameters. -/
def notebook_data_config (input_uri output_path : String) : DataConfig :=
  { s3_data_input_path := input_uri
    s3_output_path := output_path
    label := "star_rating"
    feature_columns := ["review_body", "product_category"]
    headers := notebook_headers
    dataset_type := "application/jsonlines" }

/-- The notebook's bias configuration (cell `clarify.BiasConfig`):
facet "product_category", favorable label values [5, 4], with the label
treated as categorical (the cell's own comment: "needs to be >1 for
categorical dtype"). -/
def notebook_bias_config : BiasConfig :=
  { facet_name := "product_category"
    label_values_or_threshold := [5, 4]
    label_domain := .categorical }

/-- Which of the notebook's dataset columns are declared numeric: the
star rating is an integer label; the review body and product category
are text (the cell's example record is
`{"features": ["the worst", "Digital_Software"]}`). -/
def notebook_column_numeric (c : String) : Bool := c = "star_rating"

/-- The notebook's submission call: the exact metric list, with
`wait=False` and `logs=False` (the commented-out `methods='all'` was
rejected because "FlipTest requires all columns to be numeric"). -/
def notebook_run_call : RunPostTrainingBiasCall :=
  { methods := ["DPPL", "DI", "DCA", "DCR", "RD", "DAR", "DRR", "AD", "TE"]
    wait := false
    logs := false }

/-- Modelled from the spec: a well-formed configuration pair — non-empty
feature columns, header columns placing the label last and the feature
columns in the model's consumption order, facet column present in the
header columns, non-empty favorable label values with at least two
categories for a categorical label domain, and numeric facet/feature
columns whenever the FT metric is requested. -/
def WellFormed (numeric : String → Bool) (dc : DataConfig) (bc : BiasConfig)
    (metrics : List String) : Prop :=
  dc.feature_columns ≠ [] ∧
  dc.headers = dc.feature_columns ++ [dc.label] ∧
  bc.facet_name ∈ dc.headers ∧
  bc.label_values_or_threshold ≠ [] ∧
  (bc.label_domain = .categorical → 2 ≤ bc.label_values_or_threshold.length) ∧
  ("FT" ∈ metrics → ∀ c ∈ bc.facet_name :: dc.feature_columns, numeric c = true)

/-- A stubbed status-query service that reports the running status on
its first two queries and Succeeded on the third. -/
def svcRunningRunningSucceeded : Nat → ServiceResponse := fun i =>
  .returns [{ PipelineExecutionStatus :=
                (if i < 2 then JobStatus.Running else JobStatus.Succeeded).asReported,
              PipelineExecutionArn := "arn:exec-1" }]

/-- A stubbed status-query service that raises a transient error on its
first two queries and reports Failed afterwards. -/
def svcRaisesTwiceThenFailed : Nat → ServiceResponse := fun i =>
  if i < 2 then .raises
  else .returns [{ PipelineExecutionStatus := JobStatus.Failed.asReported,
                   PipelineExecutionArn := "arn:exec-1" }]

/-- A stubbed status-query service that first reports the running
status, raises a transient error on the next two queries, and reports
Failed afterwards. -/
def svcExecutingRaisesTwiceFailed : Nat → ServiceResponse := fun i =>
  if i = 0 then .returns [{ PipelineExecutionStatus := JobStatus.Running.asReported,
                            PipelineExecutionArn := "arn:exec-1" }]
  else if i < 3 then .raises
  else .returns [{ PipelineExecutionStatus := JobStatus.Failed.asReported,
                   PipelineExecutionArn := "arn:exec-1" }]

/-! ## Theorems -/

/-- C1: the polling loop keeps polling exactly while the reported
status is the in-progress one — at the string level it continues (makes
a further query) if and only if the status is "Executing" and exits
immediately, without any further query, on every other status value; at
the level of the specification's statuses it continues exactly on
Running or Pending and exits at once on each terminal value Succeeded,
Failed, Stopped. -/
theorem pollLoop_continues_only_on_executing
    (pname : String) (svc : Nat → ServiceResponse) (fuel i : Nat) (st : PollState) :
    (st.pipeline_execution_status ≠ "Executing" →
      pollLoop pname svc (fuel + 1) i st = (some (st, i), [])) ∧
    (st.pipeline_execution_status = "Executing" →
      (pollLoop pname svc (fuel + 1) i st).2 =
        ServiceOp.listPipelineExecutions pname ::
          (pollLoop pname svc fuel (i + 1) (pollStep (svc i) st)).2) ∧
    ((pollLoop pname svc (fuel + 1) i st).2 = [] ↔
      st.pipeline_execution_status ≠ "Executing") ∧
    (∀ (er : List ExecutionSummary) (s : JobStatus),
      (pollLoop pname svc (fuel + 1) i ⟨er, s.asReported⟩).2 ≠ [] ↔
        (s = .Running ∨ s = .Pending)) ∧
    (∀ (er : List ExecutionSummary) (s : JobStatus),
      s = .Succeeded ∨ s = .Failed ∨ s = .Stopped →
      pollLoop pname svc (fuel + 1) i ⟨er, s.asReported⟩ =
        (some (⟨er, s.asReported⟩, i), [])) := by
  refine ⟨fun h => by simp [pollLoop, h], fun h => by simp [pollLoop, h], ?_, ?_, ?_⟩
  · by_cases h : st.pipeline_execution_status = "Executing" <;> simp [pollLoop, h]
  · intro er s
    cases s <;> simp [pollLoop, JobStatus.asReported]
  · intro er s hs
    rcases hs with h | h | h <;> subst h <;> simp [pollLoop, JobStatus.asReported]

/-- Witness for C1 at a concrete terminal state. -/
theorem pollLoop_continues_only_on_executing_witness :
    pollLoop "pipeline" (fun _ => ServiceResponse.raises) 1 1
        ⟨[], "Succeeded"⟩ =
      (some (⟨[], "Succeeded"⟩, 1), []) :=
  (pollLoop_continues_only_on_executing "pipeline" (fun _ => ServiceResponse.raises)
    0 1 ⟨[], "Succeeded"⟩).1 (by decide)

/-- C2: on a status-query service that reports the running status
twice and then Succeeded, `await_completion` performs exactly 3 queries
(the initial one plus one per loop iteration) and returns Succeeded. -/
theorem await_completion_three_queries :
    await_completion "pipeline" 10 svcRunningRunningSucceeded =
      (AwaitResult.ok ⟨[⟨"Succeeded", "arn:exec-1"⟩], "Succeeded"⟩ 3,
       [ServiceOp.listPipelineExecutions "pipeline",
        ServiceOp.listPipelineExecutions "pipeline",
        ServiceOp.listPipelineExecutions "pipeline"]) := by
  rfl

/-- C3, counterexample: because the initial query is made outside the
`try:`/`except:`, a status-query function that raises twice before
reporting Failed makes `await_completion` propagate the first failure
to the caller instead of returning Failed. -/
theorem await_completion_initial_raise_propagates :
    await_completion "pipeline" 10 svcRaisesTwiceThenFailed =
      (AwaitResult.uncaught PyError.apiException,
       [ServiceOp.listPipelineExecutions "pipeline"]) := by
  rfl

/-- C3, amended: every failure raised by a status query made inside the
polling loop is swallowed (the local state is kept and the query is
retried after the fixed 30-second sleep) and never propagated, while
the initial query is unprotected; a job that ends in Failed or Stopped
is returned as an ordinary result value; concretely, on a query
function that first reports the running status, then raises twice, then
reports Failed, `await_completion` returns Failed as a value after 4
queries. -/
theorem in_loop_failures_swallowed :
    (∀ (pname : String) (svc : Nat → ServiceResponse) (fuel i : Nat) (st : PollState),
      st.pipeline_execution_status = "Executing" → svc i = ServiceResponse.raises →
      pollLoop pname svc (fuel + 1) i st =
        ((pollLoop pname svc fuel (i + 1) st).1,
         ServiceOp.listPipelineExecutions pname ::
           (pollLoop pname svc fuel (i + 1) st).2)) ∧
    (∀ (pname : String) (svc : Nat → ServiceResponse) (fuel i : Nat) (st : PollState),
      st.pipeline_execution_status = "Failed" ∨ st.pipeline_execution_status = "Stopped" →
      pollLoop pname svc (fuel + 1) i st = (some (st, i), [])) ∧
    poll_interval_seconds = 30 ∧
    await_completion "pipeline" 10 svcExecutingRaisesTwiceFailed =
      (AwaitResult.ok ⟨[⟨"Failed", "arn:exec-1"⟩], "Failed"⟩ 4,
       List.replicate 4 (ServiceOp.listPipelineExecutions "pipeline")) := by
  refine ⟨?_, ?_, rfl, by rfl⟩
  · intro pname svc fuel i st hst hraise
    simp [pollLoop, hst, hraise, pollStep]
  · intro pname svc fuel i st hst
    rcases hst with h | h <;> simp [pollLoop, h]

/-- Witness for C3's amended theorem: a concrete in-loop raise is
retried, not propagated. -/
theorem in_loop_failures_swallowed_witness :
    pollLoop "pipeline" (fun _ => ServiceResponse.raises) 1 1 ⟨[], "Executing"⟩ =
      ((pollLoop "pipeline" (fun _ => ServiceResponse.raises) 0 2 ⟨[], "Executing"⟩).1,
       ServiceOp.listPipelineExecutions "pipeline" ::
         (pollLoop "pipeline" (fun _ => ServiceResponse.raises) 0 2 ⟨[], "Executing"⟩).2) :=
  in_loop_failures_swallowed.1 "pipeline" (fun _ => ServiceResponse.raises)
    0 1 ⟨[], "Executing"⟩ rfl rfl

/-- Every operation in the polling loop's trace is the read-only
status query for the given pipeline. -/
theorem pollLoop_trace_readonly (pname : String) (svc : Nat → ServiceResponse) :
    ∀ (fuel i : Nat) (st : PollState) (op : ServiceOp),
      op ∈ (pollLoop pname svc fuel i st).2 →
      op = ServiceOp.listPipelineExecutions pname := by
  intro fuel
  induction fuel with
  | zero => intro i st op h; simp [pollLoop] at h
  | succ n ih =>
    intro i st op h
    by_cases hst : st.pipeline_execution_status = "Executing"
    · simp only [pollLoop, hst, if_pos] at h
      rcases List.mem_cons.1 h with h | h
      · exact h
      · exact ih (i + 1) (pollStep (svc i) st) op h
    · simp [pollLoop, hst] at h

/-- C8: `await_completion` performs only read-only status queries
against the external service — every operation in its trace is the
`listPipelineExecutions` query for the polled pipeline, and no
submission or mutation call occurs; the only state it writes is the
locally held `PollState` (last response and last status) threaded
through `pollStep`. -/
theorem await_completion_readonly
    (pname : String) (fuel : Nat) (svc : Nat → ServiceResponse) (op : ServiceOp)
    (h : op ∈ (await_completion pname fuel svc).2) :
    op = ServiceOp.listPipelineExecutions pname ∧ op.isReadOnly = true := by
  have key : op = ServiceOp.listPipelineExecutions pname := by
    rcases hs : svc 0 with _ | l
    · simp [await_completion, hs] at h
      exact h
    · rcases l with _ | ⟨s, rest⟩
      · simp [await_completion, hs, statusOfResponse] at h
        exact h
      · rcases hp : pollLoop pname svc fuel 1 ⟨s :: rest, s.PipelineExecutionStatus⟩
          with ⟨r, tr⟩
        have htr : tr = (pollLoop pname svc fuel 1
            ⟨s :: rest, s.PipelineExecutionStatus⟩).2 := by rw [hp]
        rcases r with _ | ⟨fin, n⟩
        · simp [await_completion, hs, statusOfResponse, hp] at h
          rcases h with h | h
          · exact h
          · exact pollLoop_trace_readonly pname svc fuel 1 _ op (htr ▸ h)
        · simp [await_completion, hs, statusOfResponse, hp] at h
          rcases h with h | h
          · exact h
          · exact pollLoop_trace_readonly pname svc fuel 1 _ op (htr ▸ h)
  exact ⟨key, by rw [key]; rfl⟩

/-- Witness for C8 at a concrete service and trace element. -/
theorem await_completion_readonly_witness :
    ServiceOp.listPipelineExecutions "pipeline" =
        ServiceOp.listPipelineExecutions "pipeline" ∧
      (ServiceOp.listPipelineExecutions "pipeline").isReadOnly = true :=
  await_completion_readonly "pipeline" 0 (fun _ => ServiceResponse.raises)
    (ServiceOp.listPipelineExecutions "pipeline") (by simp [await_completion])

/-- C9: every status read takes the first element of the returned list
of execution summaries — on a non-empty list it yields the first
summary's status, on an empty list it is an index error and no status
is produced; when the very first query returns an empty list this index
error escapes `await_completion`, so the poller needs at least one
execution summary to exist. -/
theorem status_read_first_summary :
    statusOfResponse [] = Except.error PyError.indexError ∧
    (∀ (s : ExecutionSummary) (rest : List ExecutionSummary),
      statusOfResponse (s :: rest) = Except.ok s.PipelineExecutionStatus) ∧
    (∀ (pname : String) (fuel : Nat) (svc : Nat → ServiceResponse),
      svc 0 = ServiceResponse.returns [] →
      await_completion pname fuel svc =
        (AwaitResult.uncaught PyError.indexError,
         [ServiceOp.listPipelineExecutions pname])) := by
  refine ⟨rfl, fun s rest => rfl, ?_⟩
  intro pname fuel svc h
  simp [await_completion, h, statusOfResponse]

/-- Witness for C9 at a concrete service returning no summaries. -/
theorem status_read_first_summary_witness :
    await_completion "pipeline" 5 (fun _ => ServiceResponse.returns []) =
      (AwaitResult.uncaught PyError.indexError,
       [ServiceOp.listPipelineExecutions "pipeline"]) :=
  status_read_first_summary.2.2 "pipeline" 5 (fun _ => ServiceResponse.returns []) rfl

/-- C10: the model-artifact lookup scans the execution steps in order
and returns the model arn of the first step named "CreateModel"; when
no step has that name the scan assigns nothing, so the following
`print(model_arn)` raises an undefined-variable `NameError` (modelled
as `none`) rather than a descriptive configuration error. -/
theorem findModelArn_first_create_model :
    (∀ steps : List ExecutionStep,
      (∀ s ∈ steps, s.StepName ≠ "CreateModel") → findModelArn steps = none) ∧
    (∀ (pre : List ExecutionStep) (s : ExecutionStep) (post : List ExecutionStep),
      s.StepName = "CreateModel" →
      (∀ t ∈ pre, t.StepName ≠ "CreateModel") →
      findModelArn (pre ++ s :: post) = some s.modelArn) := by
  constructor
  · intro steps
    induction steps with
    | nil => intro _; rfl
    | cons a rest ih =>
      intro h
      have ha := h a (List.mem_cons_self a rest)
      simp only [findModelArn, if_neg ha]
      exact ih fun t ht => h t (List.mem_cons_of_mem a ht)
  · intro pre
    induction pre with
    | nil =>
      intro s post hs _
      simp [findModelArn, hs]
    | cons a rest ih =>
      intro s post hs h
      have ha := h a (List.mem_cons_self a rest)
      simp only [List.cons_append, findModelArn, if_neg ha]
      exact ih s post hs fun t ht => h t (List.mem_cons_of_mem a ht)

/-- Witness for C10 at a concrete step list with and without a
"CreateModel" step. -/
theorem findModelArn_first_create_model_witness :
    findModelArn [⟨"Train", "arn:model-0"⟩] = none ∧
    findModelArn [⟨"Train", "arn:model-0"⟩, ⟨"CreateModel", "arn:model-1"⟩] =
      some "arn:model-1" :=
  ⟨findModelArn_first_create_model.1 [⟨"Train", "arn:model-0"⟩] (by decide),
   findModelArn_first_create_model.2 [⟨"Train", "arn:model-0"⟩]
     ⟨"CreateModel", "arn:model-1"⟩ [] rfl (by decide)⟩

/-- C4: for every well-formed configuration pair — facet column in the
header columns, label last in the header columns, feature columns in
the model's consumption order, and the remaining structural invariants
— `submit` raises no ValidationError; the notebook's configuration
(headers ["review_body", "product_category", "star_rating"], label
"star_rating", facet "product_category") is such a pair. -/
theorem submit_wellformed_no_validation_error :
    (∀ (numeric : String → Bool) (dc : DataConfig) (bc : BiasConfig)
        (metrics : List String) (svcJobName : String),
      WellFormed numeric dc bc metrics →
      submit numeric dc bc metrics svcJobName = (Except.ok svcJobName, 1)) ∧
    (∀ input_uri output_path : String,
      WellFormed notebook_column_numeric (notebook_data_config input_uri output_path)
        notebook_bias_config notebook_run_call.methods) := by
  constructor
  · intro numeric dc bc metrics svcJobName h
    obtain ⟨h1, h2, h3, h4, h5, h6⟩ := h
    have h5a : ¬ (bc.label_domain = LabelDomain.categorical ∧
        bc.label_values_or_threshold.length < 2) := by
      rintro ⟨hc, hlt⟩
      have := h5 hc
      omega
    have h6a : ¬ ("FT" ∈ metrics ∧
        ¬ ∀ c ∈ bc.facet_name :: dc.feature_columns, numeric c = true) := by
      rintro ⟨hm, hn⟩
      exact hn (h6 hm)
    have hfv : favorable_values_ok bc = Except.ok () := by
      unfold favorable_values_ok
      rw [if_neg h4, if_neg h5a]
    have hval : validate numeric dc bc metrics = Except.ok () := by
      unfold validate
      rw [if_neg h1, if_neg (not_not_intro h2), if_neg (not_not_intro h3), hfv]
      exact if_neg h6a
    unfold submit
    rw [hval]
  · intro input_uri output_path
    refine ⟨by simp [notebook_data_config], by simp [notebook_data_config, notebook_headers],
      by simp [notebook_data_config, notebook_bias_config, notebook_headers],
      by simp [notebook_bias_config], fun _ => by simp [notebook_bias_config], fun hFT => ?_⟩
    exact absurd hFT (by simp [notebook_run_call])

/-- Witness for C4: the notebook's configuration submits without a
ValidationError. -/
theorem submit_wellformed_no_validation_error_witness :
    submit notebook_column_numeric
        (notebook_data_config "s3://bucket/bias/test_data_bias" "s3://bucket/bias/report")
        notebook_bias_config notebook_run_call.methods "Clarify-Posttraining-Bias-1" =
      (Except.ok "Clarify-Posttraining-Bias-1", 1) :=
  submit_wellformed_no_validation_error.1 notebook_column_numeric
    (notebook_data_config "s3://bucket/bias/test_data_bias" "s3://bucket/bias/report")
    notebook_bias_config notebook_run_call.methods "Clarify-Posttraining-Bias-1"
    (submit_wellformed_no_validation_error.2 "s3://bucket/bias/test_data_bias"
      "s3://bucket/bias/report")

/-- C5: on the notebook's configuration, `submit` issues exactly one
job-creation call and returns the non-empty job name the service
assigns without waiting for the job to complete — the notebook's
submission call passes `wait=False` and the job name is read back
immediately afterwards. -/
theorem submit_single_call_async :
    (∀ input_uri output_path svcJobName : String, svcJobName ≠ "" →
      submit notebook_column_numeric (notebook_data_config input_uri output_path)
          notebook_bias_config notebook_run_call.methods svcJobName =
        (Except.ok svcJobName, 1) ∧ svcJobName ≠ "") ∧
    notebook_run_call.wait = false := by
  exact ⟨fun input_uri output_path svcJobName h => ⟨rfl, h⟩, rfl⟩

/-- Witness for C5 at a concrete non-empty job name. -/
theorem submit_single_call_async_witness :
    submit notebook_column_numeric
        (notebook_data_config "s3://bucket/in" "s3://bucket/out")
        notebook_bias_config notebook_run_call.methods "Clarify-Posttraining-Bias-2" =
      (Except.ok "Clarify-Posttraining-Bias-2", 1) ∧
    "Clarify-Posttraining-Bias-2" ≠ "" :=
  submit_single_call_async.1 "s3://bucket/in" "s3://bucket/out"
    "Clarify-Posttraining-Bias-2" (by decide)

/-- C6: whenever the requested metrics include FT while the facet
column or some feature column is not numeric, `submit` fails with a
ValidationError and makes no network call; the notebook's submitted
metric list is exactly ["DPPL", "DI", "DCA", "DCR", "RD", "DAR", "DRR",
"AD", "TE"], which excludes FT. -/
theorem submit_ft_nonnumeric_fails :
    (∀ (numeric : String → Bool) (dc : DataConfig) (bc : BiasConfig)
        (metrics : List String) (svcJobName : String),
      "FT" ∈ metrics →
      (numeric bc.facet_name = false ∨ ∃ c ∈ dc.feature_columns, numeric c = false) →
      ∃ e : ValidationError,
        submit numeric dc bc metrics svcJobName = (Except.error e, 0)) ∧
    notebook_run_call.methods = ["DPPL", "DI", "DCA", "DCR", "RD", "DAR", "DRR", "AD", "TE"] ∧
    "FT" ∉ notebook_run_call.methods := by
  refine ⟨?_, rfl, by simp [notebook_run_call]⟩
  intro numeric dc bc metrics svcJobName hFT hnon
  suffices hval : ∃ e, validate numeric dc bc metrics = Except.error e by
    obtain ⟨e, he⟩ := hval
    refine ⟨e, ?_⟩
    unfold submit
    rw [he]
  by_cases c1 : dc.feature_columns = []
  · refine ⟨ValidationError.emptyFeatureColumns, ?_⟩
    unfold validate
    rw [if_pos c1]
  by_cases c2 : dc.headers = dc.feature_columns ++ [dc.label]
  case neg =>
    refine ⟨ValidationError.headerOrderMismatch, ?_⟩
    unfold validate
    rw [if_neg c1, if_pos c2]
  by_cases c3 : bc.facet_name ∈ dc.headers
  case neg =>
    refine ⟨ValidationError.facetNotInHeaders, ?_⟩
    unfold validate
    rw [if_neg c1, if_neg (not_not_intro c2), if_pos c3]
  rcases hfv : favorable_values_ok bc with e | u
  · refine ⟨e, ?_⟩
    unfold validate
    rw [if_neg c1, if_neg (not_not_intro c2), if_neg (not_not_intro c3), hfv]
  · obtain ⟨⟩ := u
    have hcond : "FT" ∈ metrics ∧
        ¬ ∀ c ∈ bc.facet_name :: dc.feature_columns, numeric c = true := by
      refine ⟨hFT, fun hall => ?_⟩
      rcases hnon with hf | ⟨c, hc, hcn⟩
      · have := hall bc.facet_name (List.mem_cons_self _ _)
        rw [hf] at this
        exact Bool.false_ne_true this
      · have := hall c (List.mem_cons_of_mem _ hc)
        rw [hcn] at this
        exact Bool.false_ne_true this
    refine ⟨ValidationError.ftRequiresNumericColumns, ?_⟩
    unfold validate
    rw [if_neg c1, if_neg (not_not_intro c2), if_neg (not_not_intro c3), hfv]
    exact if_pos hcond

/-- Witness for C6: requesting FT on the notebook's (partly textual)
columns fails before any network call. -/
theorem submit_ft_nonnumeric_fails_witness :
    ∃ e : ValidationError,
      submit notebook_column_numeric (notebook_data_config "s3://in" "s3://out")
          notebook_bias_config ["FT"] "Clarify-Posttraining-Bias-3" =
        (Except.error e, 0) :=
  submit_ft_nonnumeric_fails.1 notebook_column_numeric
    (notebook_data_config "s3://in" "s3://out") notebook_bias_config ["FT"]
    "Clarify-Posttraining-Bias-3" (by decide) (Or.inl (by decide))

/-- C7: for a categorical label domain the favorable-label-values
precondition rejects a single-element list and accepts a list of at
least two values; concretely the notebook's [5, 4] passes and the
single-element variant [5] makes `submit` fail with the categorical
ValidationError before any network call. -/
theorem categorical_label_values_boundary :
    (∀ (bc : BiasConfig) (v : Int),
      bc.label_domain = LabelDomain.categorical →
      bc.label_values_or_threshold = [v] →
      favorable_values_ok bc =
        Except.error ValidationError.categoricalNeedsAtLeastTwoValues) ∧
    (∀ bc : BiasConfig,
      bc.label_domain = LabelDomain.categorical →
      2 ≤ bc.label_values_or_threshold.length →
      favorable_values_ok bc = Except.ok ()) ∧
    favorable_values_ok notebook_bias_config = Except.ok () ∧
    (∀ input_uri output_path svcJobName : String,
      submit notebook_column_numeric (notebook_data_config input_uri output_path)
          { notebook_bias_config with label_values_or_threshold := [5] }
          notebook_run_call.methods svcJobName =
        (Except.error ValidationError.categoricalNeedsAtLeastTwoValues, 0)) := by
  refine ⟨?_, ?_, rfl, fun input_uri output_path svcJobName => rfl⟩
  · intro bc v hdom hvals
    simp [favorable_values_ok, hvals, hdom]
  · intro bc hdom hlen
    have hne : bc.label_values_or_threshold ≠ [] := by
      intro h
      rw [h] at hlen
      simp at hlen
    have hnc : ¬ (bc.label_domain = LabelDomain.categorical ∧
        bc.label_values_or_threshold.length < 2) := by
      rintro ⟨_, hlt⟩
      omega
    simp [favorable_values_ok, hne, hnc]

/-- Witness for C7 at a concrete categorical bias config with one
value. -/
theorem categorical_label_values_boundary_witness :
    favorable_values_ok ⟨"product_category", [5], LabelDomain.categorical⟩ =
      Except.error ValidationError.categoricalNeedsAtLeastTwoValues :=
  categorical_label_values_boundary.1
    ⟨"product_category", [5], LabelDomain.categorical⟩ 5 rfl rfl

end Workshop
